import Mathlib

/-!
Verification of the WaddlePerf network-probe engine.

Shallow embedding of the probe drivers and statistics code in
`src/containerClient/tests/icmp_test.py`, `udp_test.py`, `tcp_test.py`,
`http_test.py`, and the archived async tools
`src/archive/client/bins/httptrace_async.py`, `resolverTime_async.py`,
`udpping_async.py`.

Python machine integers are modelled as `ℕ` with explicit `% 2^32` where the
source masks; RTT/latency floats are modelled as `ℚ`; Python strings are
`List Char`; fallible paths return `Except`; error-message strings are an
enumeration of the literal strings the source assigns.
-/

namespace WaddlePerf

/- ------------------------------------------------------------------ -/
/- ICMP checksum: `IcmpTest._calculate_checksum` and `_ping_once`      -/
/- (src/containerClient/tests/icmp_test.py)                            -/
/- ------------------------------------------------------------------ -/

namespace IcmpTest

/-- The accumulation loop of `IcmpTest._calculate_checksum`
(icmp_test.py lines 52-64): bytes are consumed in pairs read
little-endian (`data[count+1] * 256 + data[count]`), the running sum is
masked to 32 bits after each addition, and a trailing odd byte is added
on its own (also masked). -/
def checksumLoop : List ℕ → ℕ → ℕ
  | [], acc => acc
  | [b], acc => (acc + b) % 4294967296
  | b0 :: b1 :: rest, acc => checksumLoop rest ((acc + (b1 * 256 + b0)) % 4294967296)

/-- `IcmpTest._calculate_checksum` (icmp_test.py lines 50-71): run the
loop, fold the 32-bit sum twice (`(s >> 16) + (s & 0xffff)` then
`s + (s >> 16)`), complement within 16 bits (Python `~s & 0xffff` equals
`65535 - s % 65536`), and swap the two result bytes
(`answer >> 8 | (answer << 8 & 0xff00)`). -/
def calculate_checksum (data : List ℕ) : ℕ :=
  let s := checksumLoop data 0
  let s1 := s / 65536 + s % 65536
  let s2 := s1 + s1 / 65536
  let answer := 65535 - s2 % 65536
  answer / 256 + answer % 256 * 256

/-- `struct.pack("!BBHHH", 8, 0, csum, icmp_id, icmp_seq)`: the 8 header
bytes of the echo request built in `_ping_once` (icmp_test.py lines
79-86 and 91), big-endian fields, type 8, code 0. -/
def echoHeader (csum icmpId icmpSeq : ℕ) : List ℕ :=
  [8, 0, csum / 256, csum % 256, icmpId / 256, icmpId % 256, icmpSeq / 256, icmpSeq % 256]

/-- The full packet `_ping_once` transmits (icmp_test.py lines 86-93):
header with the checksum field zeroed plus the 8-byte timestamp payload
is checksummed, and the checksum is inserted into the header. -/
def echoPacket (icmpId icmpSeq : ℕ) (payload : List ℕ) : List ℕ :=
  echoHeader (calculate_checksum (echoHeader 0 icmpId icmpSeq ++ payload)) icmpId icmpSeq
    ++ payload

/-- The byte swap `answer >> 8 | (answer << 8 & 0xff00)` performed at the end
of `_calculate_checksum` (icmp_test.py line 70), as a standalone function. -/
def swapBytes (x : ℕ) : ℕ := x / 256 + x % 256 * 256

/-- The fold-and-complement tail of `_calculate_checksum` (icmp_test.py lines
66-69) applied to the 32-bit loop sum `s`: two carry folds, then
`~checksum & 0xffff`, which on Python integers equals `65535 - s₂ % 65536`. -/
def complementFold (s : ℕ) : ℕ :=
  65535 - (s / 65536 + s % 65536 + (s / 65536 + s % 65536) / 65536) % 65536

end IcmpTest

/- ------------------------------------------------------------------ -/
/- Shared data model for probe results                                 -/
/- ------------------------------------------------------------------ -/

/-- The error-message strings the embedded drivers assign to their `error`
fields. `generic` stands for the interpolated strings built from a caught
generic exception (Python `f"error: {e}"` and similar). -/
inductive ErrVal
  | timeout
  | connection_refused
  | ssl_error
  | generic
  | client_error
  | unexpected_error
  deriving DecidableEq

/-- The overall result record shared by `IcmpTestResult`
(icmp_test.py lines 14-28) and `UdpTestResult` (udp_test.py lines 14-29),
restricted to the fields the claims are about. -/
structure PingRunResult where
  latency_ms : ℚ
  jitter_ms : ℚ
  packet_loss_percent : ℚ
  packets_sent : ℕ
  packets_received : ℕ
  success : Bool
  error : Option ErrVal
  deriving DecidableEq

/-- The dataclass defaults of `IcmpTestResult` / `UdpTestResult`: all numeric
fields 0, `success=False`, `error=None`. -/
def PingRunResult.init : PingRunResult :=
  { latency_ms := 0, jitter_ms := 0, packet_loss_percent := 0, packets_sent := 0,
    packets_received := 0, success := false, error := none }

/-- The list `[abs(rtts[i] - rtts[i-1]) for i in range(1, len(rtts))]`
built by the jitter computation (icmp_test.py line 169, udp_test.py
line 126): absolute differences of temporally consecutive samples. -/
def consecutiveDiffs : List ℚ → List ℚ
  | a :: b :: rest => |b - a| :: consecutiveDiffs (b :: rest)
  | _ => []

namespace IcmpTest

/-- The statistics block of `IcmpTest._run_ping_test` (icmp_test.py lines
145-172) as a function of the per-attempt outcomes (`some rtt` when
`_ping_once` returned an RTT, `none` on timeout). `packets_sent` is
`self.packet_count`, the number of loop iterations, hence the length of the
outcome list; `packets_received` is incremented exactly when a sample is
appended to `rtts`. When `packet_count` is 0 the loss division raises
`ZeroDivisionError`, caught by the outer handler (line 181) which sets
`error`; all fields already assigned keep their values. -/
def runPingStats (attempts : List (Option ℚ)) : PingRunResult :=
  let rtts := attempts.filterMap id
  { latency_ms := if rtts.length ≠ 0 then rtts.sum / (rtts.length : ℚ) else 0
    jitter_ms := if 1 < rtts.length then
        (consecutiveDiffs rtts).sum / ((consecutiveDiffs rtts).length : ℚ) else 0
    packet_loss_percent :=
      ((attempts.length : ℚ) - (rtts.length : ℚ)) / (attempts.length : ℚ) * 100
    packets_sent := attempts.length
    packets_received := rtts.length
    success := !rtts.isEmpty
    error := if attempts.length = 0 then some .generic else none }

end IcmpTest

namespace UdpTest

/-- The statistics block of `UdpTest._test_raw_udp` (udp_test.py lines
102-129), textually identical to the ICMP one: same `rtts` accumulation,
same latency/jitter/loss computation, `packets_sent = self.packet_count`. -/
def test_raw_udp (attempts : List (Option ℚ)) : PingRunResult :=
  let rtts := attempts.filterMap id
  { latency_ms := if rtts.length ≠ 0 then rtts.sum / (rtts.length : ℚ) else 0
    jitter_ms := if 1 < rtts.length then
        (consecutiveDiffs rtts).sum / ((consecutiveDiffs rtts).length : ℚ) else 0
    packet_loss_percent :=
      ((attempts.length : ℚ) - (rtts.length : ℚ)) / (attempts.length : ℚ) * 100
    packets_sent := attempts.length
    packets_received := rtts.length
    success := !rtts.isEmpty
    error := if attempts.length = 0 then some .generic else none }

end UdpTest

/-- Jitter as the specification words it (spec §4.6): the arithmetic mean of
the absolute differences between temporally consecutive successful samples.
This definition follows the spec's words, to be compared with the drivers'
computation. -/
def specJitter (samples : List ℚ) : ℚ :=
  (List.zipWith (fun a b => |b - a|) samples samples.tail).sum /
    ((List.zipWith (fun a b => |b - a|) samples samples.tail).length : ℚ)

/- ------------------------------------------------------------------ -/
/- Percentiles and median: `AsyncHttpTrace.run_async`                  -/
/- (src/archive/client/bins/httptrace_async.py lines 194-217)          -/
/- ------------------------------------------------------------------ -/

namespace AsyncHttpTrace

/-- Insertion into an ascending list; `insertionSort` below models Python's
builtin `sorted(times)` (httptrace_async.py line 210): ascending, stable. -/
def insertSorted (x : ℚ) : List ℚ → List ℚ
  | [] => [x]
  | y :: ys => if x ≤ y then x :: y :: ys else y :: insertSorted x ys

/-- Python `sorted(times)` (httptrace_async.py line 210) modelled as
insertion sort: ascending order. -/
def pythonSorted (l : List ℚ) : List ℚ := l.foldr insertSorted []

/-- The index `int(len(sorted_times) * p)` used by the percentile block
(httptrace_async.py lines 213-216): truncation of `len * p`, which for
nonnegative values is the floor. -/
def percentileIndex (n : ℕ) (p : ℚ) : ℕ := Nat.floor ((n : ℚ) * p)

/-- `sorted_times[int(len(sorted_times) * p)]` (httptrace_async.py lines
213-216): nearest-rank percentile over the sorted samples. -/
def percentile (times : List ℚ) (p : ℚ) : ℚ :=
  (pythonSorted times).getD (percentileIndex times.length p) 0

/-- Modelled from the spec: `statistics.median(times)` (httptrace_async.py
line 204) is the Python standard library, not part of this repository; the
spec (§4.6) defines the median as the middle value of the sorted samples,
or the mean of the two middle values for even counts. -/
def median (times : List ℚ) : ℚ :=
  if times.length % 2 = 1 then (pythonSorted times).getD (times.length / 2) 0
  else
    ((pythonSorted times).getD (times.length / 2 - 1) 0 +
      (pythonSorted times).getD (times.length / 2) 0) / 2

end AsyncHttpTrace

/- ------------------------------------------------------------------ -/
/- Concurrency scheduler: the `asyncio.Semaphore` fan-out pattern of    -/
/- `AsyncHttpTrace.run_concurrent_tests` (httptrace_async.py 143-165)   -/
/- and `AsyncResolverTime.run_concurrent_queries`                       -/
/- (resolverTime_async.py 130-160)                                      -/
/- ------------------------------------------------------------------ -/

/-- State of a scheduled concurrent run: `permits` is the semaphore's
internal counter, `inflight` the number of attempts currently executing
their protocol operation inside `async with semaphore`, `pending` the
created tasks that have not yet acquired a slot, `done` the completed
attempts. -/
structure SchedState where
  permits : ℕ
  inflight : ℕ
  pending : ℕ
  done : ℕ
  deriving DecidableEq

/-- One scheduler transition. `acquire` is a pending task entering
`async with semaphore` when the counter is positive (the semaphore
decrements and the protocol operation starts); `release` is an attempt
finishing its operation (success or failure), leaving the `async with`
block (the semaphore increments). The event loop interleaves these
steps arbitrarily. -/
inductive SchedStep : SchedState → SchedState → Prop
  | acquire (s : SchedState) (hp : 0 < s.permits) (hpe : 0 < s.pending) :
      SchedStep s ⟨s.permits - 1, s.inflight + 1, s.pending - 1, s.done⟩
  | release (s : SchedState) (hi : 0 < s.inflight) :
      SchedStep s ⟨s.permits + 1, s.inflight - 1, s.pending, s.done + 1⟩

/-- States reachable during a run with semaphore capacity `limit`
(`asyncio.Semaphore(self.concurrent_requests)`, httptrace_async.py line
145) and `n` created tasks (line 152-155): initially the counter is full,
nothing is in flight, all tasks pending. -/
inductive SchedReach (limit n : ℕ) : SchedState → Prop
  | init : SchedReach limit n ⟨limit, 0, n, 0⟩
  | step {s t : SchedState} : SchedReach limit n s → SchedStep s t → SchedReach limit n t

/- ------------------------------------------------------------------ -/
/- Target parsing and driver entry points (run_test methods)           -/
/- ------------------------------------------------------------------ -/

/-- Python exceptions that escape a driver entry point. -/
inductive PyExc
  | valueError
  deriving DecidableEq

/-- The digit-accumulation core of Python `int(s)`: consumes decimal digits
left to right; any non-digit character raises `ValueError` (modelled as
`none`). -/
def digitsVal : List Char → ℕ → Option ℕ
  | [], acc => some acc
  | c :: rest, acc =>
      if c.isDigit then digitsVal rest (acc * 10 + (c.toNat - 48)) else none

/-- Python `int(port_str)` (tcp_test.py line 218, udp_test.py line 211):
an optional sign followed by one or more decimal digits; anything else
raises `ValueError`. (Whitespace stripping and underscore separators of
full Python `int` are not modelled; they do not affect the inputs used
here.) -/
def pyIntParse : List Char → Option ℤ
  | [] => none
  | '-' :: rest =>
      if rest = [] then none else (digitsVal rest 0).map (fun n => -(n : ℤ))
  | '+' :: rest =>
      if rest = [] then none else (digitsVal rest 0).map (fun n => (n : ℤ))
  | s => (digitsVal s 0).map (fun n => (n : ℤ))

/-- Python `s.rsplit(sep, 1)` for a string containing `sep`: the part before
the last occurrence of `sep`, and the part after it. -/
def rsplitLast (sep : Char) (s : List Char) : List Char × List Char :=
  (((s.reverse.dropWhile (fun ch => ch ≠ sep)).drop 1).reverse,
    (s.reverse.takeWhile (fun ch => ch ≠ sep)).reverse)

namespace TcpTest

/-- The protocol selector of `TcpTest.run_test` (tcp_test.py line 207). -/
inductive TcpProto
  | raw_tcp
  | tcp_tls
  | ssh
  deriving DecidableEq

/-- Default ports chosen when the target has no `:port` suffix
(tcp_test.py lines 219-227). -/
def defaultPort : TcpProto → ℤ
  | .ssh => 22
  | .tcp_tls => 443
  | .raw_tcp => 80

/-- The target parsing of `TcpTest.run_test` (tcp_test.py lines 215-227):
if the target contains a colon, split at the last colon and apply
`int()` to the port part — `int()` raising `ValueError` propagates out of
`run_test`, because this code is outside any try block. -/
def parseTarget (target : List Char) (protocol : TcpProto) :
    Except PyExc (List Char × ℤ) :=
  if target.contains ':' then
    match pyIntParse (rsplitLast ':' target).2 with
    | some p => .ok ((rsplitLast ':' target).1, p)
    | none => .error .valueError
  else .ok (target, defaultPort protocol)

/-- What the network does during one TCP test attempt, as observed at the
await points of `_test_raw_tcp` / `_test_tcp_tls` / `_test_ssh`:
the connection (and handshake/banner) completes with a measured latency,
or one of the exceptions of the except-chains is raised. -/
inductive TcpBehavior
  | connectOk (latency : ℚ)
  | raiseTimeout
  | raiseConnRefused
  | raiseSsl
  | raiseOther
  deriving DecidableEq

/-- The fields of `TcpTestResult` (tcp_test.py lines 13-25) the claims are
about. -/
structure TcpResultM where
  latency_ms : ℚ
  success : Bool
  error : Option ErrVal
  deriving DecidableEq

/-- `TcpTest._test_raw_tcp` (tcp_test.py lines 46-91): the whole body is
wrapped in try/except; `asyncio.TimeoutError` sets `error="timeout"` and
`latency_ms = timeout*1000`, `ConnectionRefusedError` sets
`error="connection_refused"`, any other exception (including
`ssl.SSLError`, an `OSError`) sets the generic `error: {e}` string. -/
def test_raw_tcp (timeout : ℚ) : TcpBehavior → TcpResultM
  | .connectOk l => { latency_ms := l, success := true, error := none }
  | .raiseTimeout =>
      { latency_ms := timeout * 1000, success := false, error := some .timeout }
  | .raiseConnRefused =>
      { latency_ms := 0, success := false, error := some .connection_refused }
  | .raiseSsl => { latency_ms := 0, success := false, error := some .generic }
  | .raiseOther => { latency_ms := 0, success := false, error := some .generic }

/-- `TcpTest._test_tcp_tls` (tcp_test.py lines 93-151): like the raw test
but with a dedicated `ssl.SSLError` handler setting `ssl_error: {e}`. -/
def test_tcp_tls (timeout : ℚ) : TcpBehavior → TcpResultM
  | .connectOk l => { latency_ms := l, success := true, error := none }
  | .raiseTimeout =>
      { latency_ms := timeout * 1000, success := false, error := some .timeout }
  | .raiseConnRefused =>
      { latency_ms := 0, success := false, error := some .connection_refused }
  | .raiseSsl => { latency_ms := 0, success := false, error := some .ssl_error }
  | .raiseOther => { latency_ms := 0, success := false, error := some .generic }

/-- `TcpTest._test_ssh` (tcp_test.py lines 153-205): handlers for timeout,
connection-refused and generic exceptions. -/
def test_ssh (timeout : ℚ) : TcpBehavior → TcpResultM
  | .connectOk l => { latency_ms := l, success := true, error := none }
  | .raiseTimeout =>
      { latency_ms := timeout * 1000, success := false, error := some .timeout }
  | .raiseConnRefused =>
      { latency_ms := 0, success := false, error := some .connection_refused }
  | .raiseSsl => { latency_ms := 0, success := false, error := some .generic }
  | .raiseOther => { latency_ms := 0, success := false, error := some .generic }

/-- `TcpTest.run_test` (tcp_test.py lines 207-235): parse the target
(outside any try block — a bad port raises `ValueError` to the caller),
then dispatch on the protocol; the dispatched bodies never raise. -/
def run_test (target : List Char) (protocol : TcpProto) (timeout : ℚ)
    (b : TcpBehavior) : Except PyExc TcpResultM :=
  match parseTarget target protocol with
  | .error e => .error e
  | .ok _ =>
      .ok (match protocol with
        | .ssh => test_ssh timeout b
        | .tcp_tls => test_tcp_tls timeout b
        | .raw_tcp => test_raw_tcp timeout b)

end TcpTest

namespace UdpTest

/-- The protocol selector of `UdpTest.run_test` (udp_test.py line 190);
anything other than `"dns"` takes the raw-UDP path (line 199). -/
inductive UdpProto
  | raw_udp
  | dns
  | udp_tls
  deriving DecidableEq

/-- The raw-UDP target parsing of `UdpTest.run_test` (udp_test.py lines
209-214): split at the last colon and apply `int()` (outside any try
block), or default to port 2000. -/
def parseTarget (target : List Char) : Except PyExc (List Char × ℤ) :=
  if target.contains ':' then
    match pyIntParse (rsplitLast ':' target).2 with
    | some p => .ok ((rsplitLast ':' target).1, p)
    | none => .error .valueError
  else .ok (target, 2000)

/-- Behavior of `UdpTest._test_raw_udp`'s environment: either the body runs
its send loop with the given per-attempt outcomes, or some operation before
the loop (resolution, socket creation) raises, which the body's
`except Exception` (udp_test.py line 138) converts into the generic error
string on a default record. -/
inductive UdpRawBehavior
  | rawRun (attempts : List (Option ℚ))
  | rawRaise
  deriving DecidableEq

/-- `UdpTest._test_raw_udp` including its exception wrapper (udp_test.py
lines 82-142). -/
def test_raw_udp_full : UdpRawBehavior → PingRunResult
  | .rawRun attempts => test_raw_udp attempts
  | .rawRaise => { PingRunResult.init with error := some .generic }

/-- Behavior of the system resolver inside `UdpTest._test_dns`
(udp_test.py lines 144-188). -/
inductive DnsBehavior
  | resolved (latency : ℚ)
  | timeoutB
  | raiseB
  deriving DecidableEq

/-- `UdpTest._test_dns` (udp_test.py lines 144-188): a resolved query sets
1 sent / 1 received / 0% loss; a timeout sets `error="timeout"`,
`latency = timeout*1000`, 1 sent / 0 received / 100% loss; any other
exception sets the generic error string on the defaults. -/
def test_dns (timeout : ℚ) : DnsBehavior → PingRunResult
  | .resolved l =>
      { latency_ms := l, jitter_ms := 0, packet_loss_percent := 0,
        packets_sent := 1, packets_received := 1, success := true, error := none }
  | .timeoutB =>
      { latency_ms := timeout * 1000, jitter_ms := 0, packet_loss_percent := 100,
        packets_sent := 1, packets_received := 0, success := false,
        error := some .timeout }
  | .raiseB => { PingRunResult.init with error := some .generic }

/-- `UdpTest.run_test` (udp_test.py lines 190-216): the DNS path splits at
the first colon (no `int()`, never raises); the raw path parses the port
with `int()` outside any try block, so a bad port raises `ValueError` to
the caller. -/
def run_test (target : List Char) (protocol : UdpProto) (timeout : ℚ)
    (raw : UdpRawBehavior) (dns : DnsBehavior) : Except PyExc PingRunResult :=
  match protocol with
  | .dns => .ok (test_dns timeout dns)
  | _ =>
      match parseTarget target with
      | .error e => .error e
      | .ok _ => .ok (test_raw_udp_full raw)

end UdpTest

namespace IcmpTest

/-- What happens between raw-socket creation and the ping loop in
`IcmpTest._run_ping_test` (icmp_test.py lines 136-143): creation succeeds
and the two socket-option calls succeed (`ok`); creation raises
`PermissionError`, caught by the inner handler which falls back to system
ping (`raisePerm`); or a socket-option call raises a non-permission
`OSError` after the socket exists, which only the outer
`except Exception` (line 181) catches (`raiseOther`). -/
inductive SetupOutcome
  | ok
  | raisePerm
  | raiseOther
  deriving DecidableEq

/-- Outcome of one `_ping_once` call (icmp_test.py lines 73-122): the
function catches every exception internally and returns an RTT or `None`. -/
inductive PingAttempt
  | reply (rtt : ℚ)
  | timeoutA
  deriving DecidableEq

/-- The `Optional[float]` view of a `_ping_once` outcome. -/
def attemptRtt : PingAttempt → Option ℚ
  | .reply r => some r
  | .timeoutA => none

/-- Result of `_run_ping_test` together with the raw socket's lifecycle:
whether a raw socket was ever created, and whether `sock.close()` ran
before the function returned. -/
structure IcmpRunOut where
  result : PingRunResult
  sockOpened : Bool
  sockClosed : Bool
  usedFallback : Bool
  deriving DecidableEq

/-- `IcmpTest._run_ping_test` (icmp_test.py lines 124-185). The only
`sock.close()` is on the straight-line path (line 160); the
`except Exception` handler (lines 181-183) sets `result.error` and returns
without closing, and there is no finally block. `fallback` is the record
the system-ping fallback `_run_system_ping` produces. -/
def run_ping_test (setup : SetupOutcome) (attempts : List PingAttempt)
    (fallback : PingRunResult) : IcmpRunOut :=
  match setup with
  | .raisePerm =>
      { result := fallback, sockOpened := false, sockClosed := false,
        usedFallback := true }
  | .raiseOther =>
      { result := { PingRunResult.init with error := some .generic },
        sockOpened := true, sockClosed := false, usedFallback := false }
  | .ok =>
      { result := runPingStats (attempts.map attemptRtt),
        sockOpened := true, sockClosed := true, usedFallback := false }

/-- `IcmpTest.run_test` (icmp_test.py lines 255-262): directly awaits
`_run_ping_test`, whose body is entirely inside try/except, so no
exception escapes to the caller. -/
def run_test (setup : SetupOutcome) (attempts : List PingAttempt)
    (fallback : PingRunResult) : Except PyExc IcmpRunOut :=
  .ok (run_ping_test setup attempts fallback)

end IcmpTest

namespace HttpTest

/-- The fields of `HttpTestResult` (http_test.py lines 13-29) the claims
are about. -/
structure HttpResultM where
  http_code : ℕ
  content_length : ℕ
  latency_ms : ℚ
  throughput_mbps : ℚ
  success : Bool
  error : Option ErrVal
  deriving DecidableEq

/-- The success branch of `HttpTest.run_test` (http_test.py lines 100-148):
a response with the given status arrives, `content` of the given length is
read, and the wall time is `latency_ms`. Throughput (line 119) is
`(len(content) * 8) / (result.latency_ms * 1000)`, computed only when
`latency_ms > 0`; success (line 140) is `200 <= status < 400`. -/
def okResult (status contentLen : ℕ) (latency : ℚ) : HttpResultM :=
  { http_code := status
    content_length := contentLen
    latency_ms := latency
    throughput_mbps :=
      if 0 < latency then (contentLen * 8 : ℚ) / (latency * 1000) else 0
    success := decide (200 ≤ status ∧ status < 400)
    error := none }

/-- Behavior of the request awaited in `HttpTest.run_test`: a response, or
one of the exceptions of the except-chain (http_test.py lines 150-159). -/
inductive HttpBehavior
  | respond (status contentLen : ℕ) (latency : ℚ)
  | raiseTimeout
  | raiseClient
  | raiseOther
  deriving DecidableEq

/-- `HttpTest.run_test` (http_test.py lines 63-161): the request is wrapped
in try/except; `asyncio.TimeoutError` sets `error="timeout"` and
`latency = timeout*1000`, `aiohttp.ClientError` sets `client_error: {e}`,
anything else sets `unexpected_error: {e}`; a record is always returned. -/
def run_test (timeout : ℚ) (b : HttpBehavior) : Except PyExc HttpResultM :=
  .ok (match b with
    | .respond s l lat => okResult s l lat
    | .raiseTimeout =>
        { http_code := 0, content_length := 0, latency_ms := timeout * 1000,
          throughput_mbps := 0, success := false, error := some .timeout }
    | .raiseClient =>
        { http_code := 0, content_length := 0, latency_ms := 0,
          throughput_mbps := 0, success := false, error := some .client_error }
    | .raiseOther =>
        { http_code := 0, content_length := 0, latency_ms := 0,
          throughput_mbps := 0, success := false, error := some .unexpected_error })

end HttpTest

/- ------------------------------------------------------------------ -/
/- Archived async UDP pinger: `AsyncUDPPing`                           -/
/- (src/archive/client/bins/udpping_async.py)                          -/
/- ------------------------------------------------------------------ -/

namespace AsyncUDPPing

/-- The per-attempt record `UDPPingResult` (udpping_async.py lines 19-26),
restricted to the fields the claims are about. -/
structure UDPPingResultM where
  rtt_ms : Option ℚ
  success : Bool
  error : Option ErrVal
  deriving DecidableEq

/-- Behavior of the environment during one `send_udp_ping_async` call:
a matching reply arrives, the receive deadline passes (`socket.timeout` or
deadline exhaustion), an exception is raised inside the receive loop, or an
exception is raised by setup/send (caught by the outer handler). -/
inductive UdpPingBehavior
  | reply (rtt : ℚ)
  | timeoutB
  | raiseInner
  | raiseOuter
  deriving DecidableEq

/-- Result of `send_udp_ping_async` together with whether the socket was
closed before returning. -/
structure UdpPingOut where
  result : UDPPingResultM
  sockClosed : Bool
  deriving DecidableEq

/-- `AsyncUDPPing.send_udp_ping_async` (udpping_async.py lines 58-142): a
matched reply returns success with the RTT; deadline exhaustion returns
`success=False, error="timeout"` (lines 123-130); exceptions return
`success=False` with the exception text; the `finally` block (lines
140-142) closes the socket on every path. -/
def send_udp_ping : UdpPingBehavior → UdpPingOut
  | .reply r =>
      { result := { rtt_ms := some r, success := true, error := none },
        sockClosed := true }
  | .timeoutB =>
      { result := { rtt_ms := none, success := false, error := some .timeout },
        sockClosed := true }
  | .raiseInner =>
      { result := { rtt_ms := none, success := false, error := some .generic },
        sockClosed := true }
  | .raiseOuter =>
      { result := { rtt_ms := none, success := false, error := some .generic },
        sockClosed := true }

/-- The aggregate fields computed by `AsyncUDPPing.calculate_statistics`
(udpping_async.py lines 173-202) that the claims are about. -/
structure ArchiveStats where
  packets_transmitted : ℕ
  packets_received : ℕ
  packets_lost : ℕ
  packet_loss_percent : ℚ
  deriving DecidableEq

/-- `AsyncUDPPing.calculate_statistics` (udpping_async.py lines 173-202):
received counts successful results with an RTT, lost counts unsuccessful
ones, and loss is `len(failed) / len(results) * 100` (0 on no results). -/
def calculate_statistics (results : List UDPPingResultM) : ArchiveStats :=
  { packets_transmitted := results.length
    packets_received := (results.filter (fun r => r.success && r.rtt_ms.isSome)).length
    packets_lost := (results.filter (fun r => !r.success)).length
    packet_loss_percent :=
      if results.length ≠ 0 then
        (((results.filter (fun r => !r.success)).length : ℚ) / (results.length : ℚ)) * 100
      else 0 }

end AsyncUDPPing

end WaddlePerf

namespace WaddlePerf

namespace IcmpTest

theorem calculate_checksum_eq (data : List ℕ) :
    calculate_checksum data = swapBytes (complementFold (checksumLoop data 0)) := rfl

theorem checksumLoop_sixteen (x0 x1 x2 x3 x4 x5 x6 x7 x8 x9 x10 x11 x12 x13 x14 x15 : ℕ)
    (h1 : x1 < 256) (h3 : x3 < 256) (h5 : x5 < 256) (h7 : x7 < 256)
    (h9 : x9 < 256) (h11 : x11 < 256) (h13 : x13 < 256) (h15 : x15 < 256)
    (h0 : x0 < 256) (h2 : x2 < 256) (h4 : x4 < 256) (h6 : x6 < 256)
    (h8 : x8 < 256) (h10 : x10 < 256) (h12 : x12 < 256) (h14 : x14 < 256) :
    checksumLoop [x0, x1, x2, x3, x4, x5, x6, x7, x8, x9, x10, x11, x12, x13, x14, x15] 0 =
      x1 * 256 + x0 + (x3 * 256 + x2) + (x5 * 256 + x4) + (x7 * 256 + x6) +
        (x9 * 256 + x8) + (x11 * 256 + x10) + (x13 * 256 + x12) + (x15 * 256 + x14) := by
  simp only [checksumLoop]
  omega

theorem complementFold_lt (s : ℕ) : complementFold s < 65536 := by
  unfold complementFold
  omega

theorem swapBytes_swapBytes (x : ℕ) (h : x < 65536) : swapBytes (swapBytes x) = x := by
  unfold swapBytes
  omega

theorem swapBytes_lt (x : ℕ) (h : x < 65536) : swapBytes x < 65536 := by
  unfold swapBytes
  omega

theorem complementFold_shifted (q r : ℕ) (hr : r < 65536) :
    complementFold (65536 * q + r) = 65535 - (q + r + (q + r) / 65536) % 65536 := by
  unfold complementFold
  have h1 : (65536 * q + r) / 65536 = q := by omega
  have h2 : (65536 * q + r) % 65536 = r := by omega
  rw [h1, h2]

theorem complementFold_closed (q r : ℕ) (hq : q ≤ 7) (hr : r < 65536) :
    65536 * q + r + complementFold (65536 * q + r) = 65535 * (q + 1) ∨
      65536 * q + r + complementFold (65536 * q + r) = 65535 * (q + 2) := by
  rw [complementFold_shifted q r hr]
  rcases Nat.lt_or_ge (q + r) 65536 with hc | hc
  · have hd : (q + r) / 65536 = 0 := by omega
    rw [hd]
    have hm : (q + r + 0) % 65536 = q + r := by omega
    rw [hm]
    left
    omega
  · have hd : (q + r) / 65536 = 1 := by omega
    rw [hd]
    have hm : (q + r + 1) % 65536 = q + r + 1 - 65536 := by omega
    rw [hm]
    right
    omega

theorem complementFold_mul (k : ℕ) (h1 : 1 ≤ k) (h2 : k ≤ 9) :
    complementFold (65535 * k) = 0 := by
  interval_cases k <;> decide

theorem complementFold_roundtrip (s : ℕ) (h : s ≤ 524280) :
    complementFold (s + complementFold s) = 0 := by
  obtain ⟨q, r, hq, hr, rfl⟩ : ∃ q r, q ≤ 7 ∧ r < 65536 ∧ s = 65536 * q + r :=
    ⟨s / 65536, s % 65536, by omega, by omega, by omega⟩
  rcases complementFold_closed q r hq hr with h' | h' <;> rw [h'] <;>
    exact complementFold_mul _ (by omega) (by omega)

theorem checksumLoop_packet (c i q b0 b1 b2 b3 b4 b5 b6 b7 : ℕ)
    (hc : c < 65536) (hi : i < 65536) (hq : q < 65536)
    (h0 : b0 < 256) (h1 : b1 < 256) (h2 : b2 < 256) (h3 : b3 < 256)
    (h4 : b4 < 256) (h5 : b5 < 256) (h6 : b6 < 256) (h7 : b7 < 256) :
    checksumLoop (echoHeader c i q ++ [b0, b1, b2, b3, b4, b5, b6, b7]) 0 =
      swapBytes c +
        (8 + swapBytes i + swapBytes q + (b1 * 256 + b0) + (b3 * 256 + b2) +
          (b5 * 256 + b4) + (b7 * 256 + b6)) := by
  have heq : echoHeader c i q ++ [b0, b1, b2, b3, b4, b5, b6, b7] =
      [8, 0, c / 256, c % 256, i / 256, i % 256, q / 256, q % 256,
        b0, b1, b2, b3, b4, b5, b6, b7] := by
    simp [echoHeader]
  rw [heq, checksumLoop_sixteen] <;> try omega
  unfold swapBytes
  omega

/-- C1: for every ICMP echo-request packet built by the ICMP driver
(8-byte header with type=8, code=0, identifier, sequence, plus 8-byte
timestamp payload), where the checksum is computed by
`_calculate_checksum` over the packet with the checksum field zeroed and
then inserted into the header, recomputing the Internet one's-complement
checksum over the full header+payload with the inserted checksum field
included yields zero. -/
theorem icmp_checksum_recompute_zero (i q b0 b1 b2 b3 b4 b5 b6 b7 : ℕ)
    (hi : i < 65536) (hq : q < 65536)
    (h0 : b0 < 256) (h1 : b1 < 256) (h2 : b2 < 256) (h3 : b3 < 256)
    (h4 : b4 < 256) (h5 : b5 < 256) (h6 : b6 < 256) (h7 : b7 < 256) :
    calculate_checksum (echoPacket i q [b0, b1, b2, b3, b4, b5, b6, b7]) = 0 := by
  set S0 : ℕ := 8 + swapBytes i + swapBytes q + (b1 * 256 + b0) + (b3 * 256 + b2) +
      (b5 * 256 + b4) + (b7 * 256 + b6) with hS0def
  have hswapi : swapBytes i < 65536 := swapBytes_lt i hi
  have hswapq : swapBytes q < 65536 := swapBytes_lt q hq
  have hS0le : S0 ≤ 524280 := by
    rw [hS0def]
    unfold swapBytes
    omega
  have hzero : checksumLoop (echoHeader 0 i q ++ [b0, b1, b2, b3, b4, b5, b6, b7]) 0 = S0 := by
    rw [checksumLoop_packet 0 i q b0 b1 b2 b3 b4 b5 b6 b7 (by omega) hi hq
      h0 h1 h2 h3 h4 h5 h6 h7]
    have h00 : swapBytes 0 = 0 := rfl
    rw [h00, hS0def]
    omega
  have hcval : calculate_checksum (echoHeader 0 i q ++ [b0, b1, b2, b3, b4, b5, b6, b7]) =
      swapBytes (complementFold S0) := by
    rw [calculate_checksum_eq, hzero]
  have hclt :
      calculate_checksum (echoHeader 0 i q ++ [b0, b1, b2, b3, b4, b5, b6, b7]) < 65536 := by
    rw [hcval]
    exact swapBytes_lt _ (complementFold_lt S0)
  rw [show echoPacket i q [b0, b1, b2, b3, b4, b5, b6, b7] =
      echoHeader (calculate_checksum (echoHeader 0 i q ++ [b0, b1, b2, b3, b4, b5, b6, b7])) i q
        ++ [b0, b1, b2, b3, b4, b5, b6, b7] from rfl]
  rw [calculate_checksum_eq]
  rw [checksumLoop_packet _ i q b0 b1 b2 b3 b4 b5 b6 b7 hclt hi hq h0 h1 h2 h3 h4 h5 h6 h7]
  rw [hcval, swapBytes_swapBytes _ (complementFold_lt S0)]
  rw [show complementFold S0 + S0 = S0 + complementFold S0 from Nat.add_comm _ _]
  rw [complementFold_roundtrip S0 hS0le]
  rfl

/-- Witness for C1: the checksum round-trip at a concrete identifier,
sequence number and timestamp payload. -/
theorem icmp_checksum_recompute_zero_witness :
    calculate_checksum (echoPacket 4660 7 [63, 240, 25, 153, 153, 153, 153, 154]) = 0 :=
  icmp_checksum_recompute_zero 4660 7 63 240 25 153 153 153 153 154
    (by decide) (by decide) (by decide) (by decide) (by decide) (by decide)
    (by decide) (by decide) (by decide) (by decide)

end IcmpTest

/- The statistics blocks of the two ping-style drivers are textually
identical in the source; the embeddings are definitionally equal. -/
theorem udp_stats_eq_icmp : UdpTest.test_raw_udp = IcmpTest.runPingStats := rfl

theorem runPingStats_sent (a : List (Option ℚ)) :
    (IcmpTest.runPingStats a).packets_sent = a.length := rfl

theorem runPingStats_received (a : List (Option ℚ)) :
    (IcmpTest.runPingStats a).packets_received = (a.filterMap id).length := rfl

theorem runPingStats_loss (a : List (Option ℚ)) :
    (IcmpTest.runPingStats a).packet_loss_percent =
      ((a.length : ℚ) - ((a.filterMap id).length : ℚ)) / (a.length : ℚ) * 100 := rfl

theorem runPingStats_jitter (a : List (Option ℚ)) :
    (IcmpTest.runPingStats a).jitter_ms =
      if 1 < (a.filterMap id).length then
        (consecutiveDiffs (a.filterMap id)).sum /
          ((consecutiveDiffs (a.filterMap id)).length : ℚ)
      else 0 := rfl

theorem pingStats_loss_props (attempts : List (Option ℚ)) (h : 1 ≤ attempts.length) :
    (IcmpTest.runPingStats attempts).packets_received ≤
        (IcmpTest.runPingStats attempts).packets_sent ∧
      (IcmpTest.runPingStats attempts).packet_loss_percent =
        100 * (((IcmpTest.runPingStats attempts).packets_sent : ℚ) -
            ((IcmpTest.runPingStats attempts).packets_received : ℚ)) /
          ((IcmpTest.runPingStats attempts).packets_sent : ℚ) ∧
      0 ≤ (IcmpTest.runPingStats attempts).packet_loss_percent ∧
      (IcmpTest.runPingStats attempts).packet_loss_percent ≤ 100 := by
  have hk : (attempts.filterMap id).length ≤ attempts.length :=
    List.length_filterMap_le id attempts
  have hn0 : (0 : ℚ) < (attempts.length : ℚ) := by
    exact_mod_cast Nat.lt_of_lt_of_le Nat.zero_lt_one h
  have hkn : ((attempts.filterMap id).length : ℚ) ≤ (attempts.length : ℚ) := by
    exact_mod_cast hk
  have hfrac : ((attempts.length : ℚ) - ((attempts.filterMap id).length : ℚ)) /
      (attempts.length : ℚ) ≤ 1 := by
    rw [div_le_one hn0]
    have : (0 : ℚ) ≤ ((attempts.filterMap id).length : ℚ) := by positivity
    linarith
  refine ⟨?_, ?_, ?_, ?_⟩
  · rw [runPingStats_sent, runPingStats_received]
    exact hk
  · rw [runPingStats_sent, runPingStats_received, runPingStats_loss]
    ring
  · rw [runPingStats_loss]
    have hnum : (0 : ℚ) ≤ (attempts.length : ℚ) - ((attempts.filterMap id).length : ℚ) := by
      linarith
    exact mul_nonneg (div_nonneg hnum hn0.le) (by norm_num)
  · rw [runPingStats_loss]
    have := mul_le_mul_of_nonneg_right hfrac (by norm_num : (0 : ℚ) ≤ 100)
    linarith

/-- C2: for every completed ICMP or UDP probe run with at least one packet
sent, the reported `packet_loss_percent` equals
`100 * (sent - received) / sent` exactly, lies in `[0, 100]`, and
`packets_received` never exceeds `packets_sent`. -/
theorem packet_loss_formula_and_bounds (attempts : List (Option ℚ))
    (h : 1 ≤ attempts.length) :
    ((IcmpTest.runPingStats attempts).packets_received ≤
        (IcmpTest.runPingStats attempts).packets_sent ∧
      (IcmpTest.runPingStats attempts).packet_loss_percent =
        100 * (((IcmpTest.runPingStats attempts).packets_sent : ℚ) -
            ((IcmpTest.runPingStats attempts).packets_received : ℚ)) /
          ((IcmpTest.runPingStats attempts).packets_sent : ℚ) ∧
      0 ≤ (IcmpTest.runPingStats attempts).packet_loss_percent ∧
      (IcmpTest.runPingStats attempts).packet_loss_percent ≤ 100) ∧
    ((UdpTest.test_raw_udp attempts).packets_received ≤
        (UdpTest.test_raw_udp attempts).packets_sent ∧
      (UdpTest.test_raw_udp attempts).packet_loss_percent =
        100 * (((UdpTest.test_raw_udp attempts).packets_sent : ℚ) -
            ((UdpTest.test_raw_udp attempts).packets_received : ℚ)) /
          ((UdpTest.test_raw_udp attempts).packets_sent : ℚ) ∧
      0 ≤ (UdpTest.test_raw_udp attempts).packet_loss_percent ∧
      (UdpTest.test_raw_udp attempts).packet_loss_percent ≤ 100) := by
  refine ⟨pingStats_loss_props attempts h, ?_⟩
  rw [udp_stats_eq_icmp]
  exact pingStats_loss_props attempts h

/-- Witness for C2 at a run of three attempts with one loss. -/
theorem packet_loss_formula_and_bounds_witness :
    0 ≤ (IcmpTest.runPingStats [some 5, none, some 7]).packet_loss_percent ∧
      (UdpTest.test_raw_udp [some 5, none, some 7]).packet_loss_percent ≤ 100 :=
  ⟨(packet_loss_formula_and_bounds [some 5, none, some 7] (by decide)).1.2.2.1,
    (packet_loss_formula_and_bounds [some 5, none, some 7] (by decide)).2.2.2.2⟩

theorem consecutiveDiffs_eq_zipWith :
    ∀ l : List ℚ, consecutiveDiffs l = List.zipWith (fun a b => |b - a|) l l.tail
  | [] => rfl
  | [_] => rfl
  | a :: b :: t => by
      show |b - a| :: consecutiveDiffs (b :: t) = _
      rw [consecutiveDiffs_eq_zipWith (b :: t)]
      rfl

/-- C3: the reported `jitter_ms` of an ICMP or UDP run with at least two
successful samples equals the arithmetic mean of the absolute differences
of temporally consecutive samples (the spec-side `specJitter`); in
particular samples `[10, 10, 10]` give jitter 0 and `[10, 20, 10]` give
jitter 10. -/
theorem jitter_is_mean_consecutive_abs_diff (attempts : List (Option ℚ))
    (h : 2 ≤ (attempts.filterMap id).length) :
    (IcmpTest.runPingStats attempts).jitter_ms = specJitter (attempts.filterMap id) ∧
      (UdpTest.test_raw_udp attempts).jitter_ms = specJitter (attempts.filterMap id) ∧
      (IcmpTest.runPingStats [some 10, some 10, some 10]).jitter_ms = 0 ∧
      (IcmpTest.runPingStats [some 10, some 20, some 10]).jitter_ms = 10 ∧
      (UdpTest.test_raw_udp [some 10, some 10, some 10]).jitter_ms = 0 ∧
      (UdpTest.test_raw_udp [some 10, some 20, some 10]).jitter_ms = 10 := by
  have hmain : (IcmpTest.runPingStats attempts).jitter_ms =
      specJitter (attempts.filterMap id) := by
    rw [runPingStats_jitter, if_pos (by omega : 1 < (attempts.filterMap id).length)]
    unfold specJitter
    rw [consecutiveDiffs_eq_zipWith]
  refine ⟨hmain, ?_,
    by norm_num [IcmpTest.runPingStats, consecutiveDiffs, List.filterMap],
    by norm_num [IcmpTest.runPingStats, consecutiveDiffs, List.filterMap],
    by norm_num [UdpTest.test_raw_udp, consecutiveDiffs, List.filterMap],
    by norm_num [UdpTest.test_raw_udp, consecutiveDiffs, List.filterMap]⟩
  rw [udp_stats_eq_icmp]
  exact hmain

/-- Witness for C3 at the spec's own example run `[10, 20, 10]`. -/
theorem jitter_is_mean_consecutive_abs_diff_witness :
    (IcmpTest.runPingStats [some 10, some 20, some 10]).jitter_ms =
      specJitter ([some 10, some 20, some 10].filterMap id) :=
  (jitter_is_mean_consecutive_abs_diff [some 10, some 20, some 10] (by decide)).1

/-- C10: an ICMP or UDP run with at most one successful sample reports
`jitter_ms = 0` (the default), not an error: the jitter computation is
guarded by `len(rtts) > 1`. -/
theorem jitter_zero_without_two_samples (attempts : List (Option ℚ))
    (h : (attempts.filterMap id).length ≤ 1) :
    (IcmpTest.runPingStats attempts).jitter_ms = 0 ∧
      (UdpTest.test_raw_udp attempts).jitter_ms = 0 := by
  have hmain : (IcmpTest.runPingStats attempts).jitter_ms = 0 := by
    rw [runPingStats_jitter, if_neg (by omega)]
  refine ⟨hmain, ?_⟩
  rw [udp_stats_eq_icmp]
  exact hmain

/-- Witness for C10 at a run with a single successful sample. -/
theorem jitter_zero_without_two_samples_witness :
    (IcmpTest.runPingStats [some 3, none]).jitter_ms = 0 :=
  (jitter_zero_without_two_samples [some 3, none] (by decide)).1

theorem schedReach_permit_invariant (limit n : ℕ) {s : SchedState}
    (h : SchedReach limit n s) : s.permits + s.inflight = limit := by
  induction h with
  | init => rfl
  | step hr hs ih =>
      cases hs with
      | acquire hp hpe =>
          dsimp only at ih ⊢
          omega
      | release hi =>
          dsimp only at ih ⊢
          omega

/-- C4: during every scheduled concurrent run, the number of attempts
executing their protocol operation (in flight between semaphore
acquisition and release) never exceeds the semaphore capacity, for every
interleaving of acquire/release steps. -/
theorem inflight_bounded_by_limit (limit n : ℕ) (s : SchedState)
    (h : SchedReach limit n s) : s.inflight ≤ limit := by
  have hinv := schedReach_permit_invariant limit n h
  omega

/-- Witness for C4: with capacity 2 and 3 tasks, the state after one
acquisition is reachable and its in-flight count is within the limit. -/
theorem inflight_bounded_by_limit_witness :
    (SchedState.mk 1 1 2 0).inflight ≤ 2 :=
  inflight_bounded_by_limit 2 3 (SchedState.mk 1 1 2 0)
    (SchedReach.step SchedReach.init
      (SchedStep.acquire (SchedState.mk 2 0 3 0) (by decide) (by decide)))

theorem percentileIndex_half (n : ℕ) : AsyncHttpTrace.percentileIndex n (1 / 2) = n / 2 := by
  unfold AsyncHttpTrace.percentileIndex
  rw [show ((n : ℚ) * (1 / 2)) = (n : ℚ) / ((2 : ℕ) : ℚ) by push_cast; ring]
  rw [Nat.floor_div_nat, Nat.floor_natCast]

/-- C6: for every non-empty odd-length sample list, the nearest-rank p50
percentile `sorted_times[int(len(sorted_times) * 0.5)]` equals the median
(the middle value of the sorted samples). -/
theorem p50_equals_median (times : List ℚ) (_hne : times ≠ [])
    (hodd : times.length % 2 = 1) :
    AsyncHttpTrace.percentile times (1 / 2) = AsyncHttpTrace.median times := by
  unfold AsyncHttpTrace.percentile AsyncHttpTrace.median
  rw [percentileIndex_half, if_pos hodd]

/-- Witness for C6 at the three-sample list `[3, 1, 2]`. -/
theorem p50_equals_median_witness :
    AsyncHttpTrace.percentile [3, 1, 2] (1 / 2) = AsyncHttpTrace.median [3, 1, 2] :=
  p50_equals_median [3, 1, 2] (by decide) (by decide)

/-- Counterexample to C5 as stated: a target whose port component is not an
integer makes `int(port_str)` — executed outside any try block — raise
`ValueError` out of `TcpTest.run_test` and `UdpTest.run_test` to the
caller, regardless of the network behavior. -/
theorem run_test_raises_valueerror_on_bad_port :
    TcpTest.run_test ['h', ':', 'x'] .raw_tcp 10 (.connectOk 5) =
        .error .valueError ∧
      UdpTest.run_test ['h', ':', 'x'] .raw_udp 5 (.rawRun []) (.resolved 1) =
        .error .valueError :=
  ⟨rfl, rfl⟩

/-- C5 (amended): for every target whose optional port suffix parses as an
integer, each driver entry point returns a structured result with raised
body failures captured in its `error` field, and no exception escapes;
the ICMP and HTTP entry points never raise at all. -/
theorem run_test_total_when_port_parses :
    (∀ (t : List Char) (p : TcpTest.TcpProto) (tmo : ℚ) (b : TcpTest.TcpBehavior)
        (hp : List Char × ℤ), TcpTest.parseTarget t p = .ok hp →
        ∃ r, TcpTest.run_test t p tmo b = .ok r ∧
          ((∀ l, b ≠ .connectOk l) → r.error.isSome = true)) ∧
    (∀ (t : List Char) (proto : UdpTest.UdpProto) (tmo : ℚ)
        (raw : UdpTest.UdpRawBehavior) (dns : UdpTest.DnsBehavior),
        (proto = .dns ∨ ∃ hp, UdpTest.parseTarget t = .ok hp) →
        ∃ r, UdpTest.run_test t proto tmo raw dns = .ok r) ∧
    (∀ (setup : IcmpTest.SetupOutcome) (attempts : List IcmpTest.PingAttempt)
        (fallback : PingRunResult),
        ∃ r, IcmpTest.run_test setup attempts fallback = .ok r ∧
          (setup = .raiseOther → r.result.error.isSome = true)) ∧
    (∀ (tmo : ℚ) (b : HttpTest.HttpBehavior),
        ∃ r, HttpTest.run_test tmo b = .ok r ∧
          ((∀ s l lat, b ≠ .respond s l lat) → r.error.isSome = true)) := by
  refine ⟨?_, ?_, ?_, ?_⟩
  · intro t p tmo b hp hparse
    refine ⟨(match p with
      | .ssh => TcpTest.test_ssh tmo b
      | .tcp_tls => TcpTest.test_tcp_tls tmo b
      | .raw_tcp => TcpTest.test_raw_tcp tmo b), ?_, ?_⟩
    · unfold TcpTest.run_test
      rw [hparse]
      cases p <;> rfl
    · intro hne
      cases p <;> cases b <;> first | rfl | exact absurd rfl (hne _)
  · intro t proto tmo raw dns h
    cases proto with
    | dns => exact ⟨_, rfl⟩
    | raw_udp =>
        rcases h with h | ⟨hp, hparse⟩
        · exact absurd h (by decide)
        · refine ⟨UdpTest.test_raw_udp_full raw, ?_⟩
          unfold UdpTest.run_test
          rw [hparse]
    | udp_tls =>
        rcases h with h | ⟨hp, hparse⟩
        · exact absurd h (by decide)
        · refine ⟨UdpTest.test_raw_udp_full raw, ?_⟩
          unfold UdpTest.run_test
          rw [hparse]
  · intro setup attempts fallback
    cases setup with
    | ok => exact ⟨_, rfl, fun h => nomatch h⟩
    | raisePerm => exact ⟨_, rfl, fun h => nomatch h⟩
    | raiseOther => exact ⟨_, rfl, fun _ => rfl⟩
  · intro tmo b
    cases b with
    | respond s l lat => exact ⟨_, rfl, fun hne => absurd rfl (hne s l lat)⟩
    | raiseTimeout => exact ⟨_, rfl, fun _ => rfl⟩
    | raiseClient => exact ⟨_, rfl, fun _ => rfl⟩
    | raiseOther => exact ⟨_, rfl, fun _ => rfl⟩

/-- Witness for C5 (amended): a TCP run with a parsed port and a timing-out
connection returns a record with the error captured. -/
theorem run_test_total_when_port_parses_witness :
    ∃ r, TcpTest.run_test ['a', ':', '8', '0'] .raw_tcp 10 .raiseTimeout = .ok r ∧
      ((∀ l, TcpTest.TcpBehavior.raiseTimeout ≠ .connectOk l) →
        r.error.isSome = true) :=
  run_test_total_when_port_parses.1 ['a', ':', '8', '0'] .raw_tcp 10 .raiseTimeout
    (['a'], 80) rfl

/-- Counterexample to C7 as stated: when all 4 raw-UDP attempts time out,
`_test_raw_udp` reports 4 sent, 0 received, 100% loss and `success=False`,
but its overall `error` field remains `None` — the per-attempt timeouts
never reach it — so it is not the string `"timeout"`. -/
theorem udp_closed_port_error_not_timeout :
    (UdpTest.test_raw_udp (List.replicate 4 none)).packets_sent = 4 ∧
      (UdpTest.test_raw_udp (List.replicate 4 none)).packets_received = 0 ∧
      (UdpTest.test_raw_udp (List.replicate 4 none)).packet_loss_percent = 100 ∧
      (UdpTest.test_raw_udp (List.replicate 4 none)).success = false ∧
      (UdpTest.test_raw_udp (List.replicate 4 none)).error = none ∧
      ¬ (UdpTest.test_raw_udp (List.replicate 4 none)).error = some ErrVal.timeout := by
  refine ⟨rfl, rfl, ?_, rfl, rfl, by decide⟩
  norm_num [UdpTest.test_raw_udp]

/-- C7 (amended): a raw-UDP probe whose 4 attempts all time out yields
`packets_sent=4`, `packets_received=0`, `packet_loss_percent=100`,
`success=False` with the overall `error` field left `None`; the archived
async UDP pinger is where each timed-out attempt's record carries
`success=False` and `error="timeout"`, and its statistics over four such
attempts give 4 transmitted, 0 received, 100% loss. -/
theorem udp_closed_port_all_timeouts :
    (UdpTest.test_raw_udp (List.replicate 4 none)).packets_sent = 4 ∧
      (UdpTest.test_raw_udp (List.replicate 4 none)).packets_received = 0 ∧
      (UdpTest.test_raw_udp (List.replicate 4 none)).packet_loss_percent = 100 ∧
      (UdpTest.test_raw_udp (List.replicate 4 none)).success = false ∧
      (UdpTest.test_raw_udp (List.replicate 4 none)).error = none ∧
      (AsyncUDPPing.send_udp_ping .timeoutB).result.success = false ∧
      (AsyncUDPPing.send_udp_ping .timeoutB).result.error = some ErrVal.timeout ∧
      (AsyncUDPPing.send_udp_ping .timeoutB).result.rtt_ms = none ∧
      (AsyncUDPPing.calculate_statistics
        (List.replicate 4 (AsyncUDPPing.send_udp_ping .timeoutB).result)).packets_transmitted
          = 4 ∧
      (AsyncUDPPing.calculate_statistics
        (List.replicate 4 (AsyncUDPPing.send_udp_ping .timeoutB).result)).packets_received
          = 0 ∧
      (AsyncUDPPing.calculate_statistics
        (List.replicate 4 (AsyncUDPPing.send_udp_ping .timeoutB).result)).packet_loss_percent
          = 100 := by
  refine ⟨rfl, rfl, ?_, rfl, rfl, rfl, rfl, rfl, rfl, rfl, ?_⟩
  · norm_num [UdpTest.test_raw_udp]
  · norm_num [AsyncUDPPing.calculate_statistics, AsyncUDPPing.send_udp_ping,
      List.replicate, List.filter]

/-- Counterexample to C8 as stated: for a 125000-byte body received in one
second (latency 1000 ms), bits divided by latency-in-seconds is 10⁶, but
`run_test` stores `(len(content) * 8) / (latency_ms * 1000) = 1`: the
code divides by latency in microseconds, not seconds. -/
theorem throughput_not_bits_per_second :
    (HttpTest.okResult 200 125000 1000).throughput_mbps = 1 ∧
      (125000 * 8 : ℚ) / ((1000 : ℚ) / 1000) = 1000000 ∧
      ¬ (HttpTest.okResult 200 125000 1000).throughput_mbps =
          (125000 * 8 : ℚ) / ((1000 : ℚ) / 1000) := by
  refine ⟨?_, by norm_num, ?_⟩ <;> norm_num [HttpTest.okResult]

/-- C8 (amended): for every successful HTTP probe with positive measured
latency, the reported `throughput_mbps` equals the bits received divided by
the latency in seconds, further divided by 10⁶ — i.e. megabits per second,
not bits per second. -/
theorem throughput_is_megabits_per_second (status len : ℕ) (lat : ℚ)
    (h : 0 < lat) :
    (HttpTest.okResult status len lat).throughput_mbps =
      (len * 8 : ℚ) / (lat / 1000) / 1000000 := by
  unfold HttpTest.okResult
  dsimp only
  rw [if_pos h]
  field_simp
  ring

/-- Witness for C8 (amended) at a 125000-byte body and 1000 ms latency. -/
theorem throughput_is_megabits_per_second_witness :
    (HttpTest.okResult 200 125000 1000).throughput_mbps =
      (125000 * 8 : ℚ) / ((1000 : ℚ) / 1000) / 1000000 :=
  throughput_is_megabits_per_second 200 125000 1000 (by norm_num)

/-- C9: the claim (socket closed on every exit path) is what the spec
requires and what the archived UDP pinger's try/finally does, but
`IcmpTest._run_ping_test` violates it: when a socket-option call raises a
non-permission error after the raw socket is created, the outer
`except Exception` handler returns the result without ever reaching
`sock.close()`; the straight-line path does close, and the archived
pinger closes even when its body raises. -/
theorem icmp_socket_not_closed_on_exception :
    (IcmpTest.run_ping_test .raiseOther [] PingRunResult.init).sockOpened = true ∧
      (IcmpTest.run_ping_test .raiseOther [] PingRunResult.init).sockClosed = false ∧
      (IcmpTest.run_ping_test .raiseOther [] PingRunResult.init).result.error =
        some ErrVal.generic ∧
      (IcmpTest.run_ping_test .ok [.reply 1, .timeoutA] PingRunResult.init).sockClosed
        = true ∧
      (AsyncUDPPing.send_udp_ping .raiseOuter).sockClosed = true :=
  ⟨rfl, rfl, rfl, rfl, rfl⟩

end WaddlePerf
